import Mathlib

/-
Verification of the VoiceFusion speech-to-speech translation pipeline.

The development shallowly embeds the pure decision logic of the repository:

* `main.py` — `detect_indian_language` (script-range regexes, then word
  lists) and the destination-language selection of `translate_text_smart`;
* `voice.py` — `detect_language` (blank check, fasttext classifier,
  hard-coded script character lists, whisper hint), `translate_text`
  (blank short-circuit, tokenizer source-language clamp, engine call),
  `speak_text` (blank no-op, TTS language clamp) and one iteration of the
  `user_stream` loop;
* `app.py` — `remove_silence` (VAD pass-through policy) and the
  `st.cache_resource`-backed `load_translation_model` router cache.

External collaborators (fasttext, whisper, the Helsinki-NLP engine, the
Silero VAD, gTTS) are parameters of the embedded functions: an oracle
returning `Option` where the Python call can raise, `none` standing for a
raised exception.

Python string primitives (`str.split()`, `str.strip()` falsiness,
`str.lower()`, `str.replace`) are re-implemented by structural recursion
on the character list so that every definition evaluates inside the
kernel; they are restricted to the ASCII behaviour, which is all the
repository's word matching exercises.
-/

/-- The whitespace class used by Python's argument-less `str.split()` and
`str.strip()` (restricted to the ASCII whitespace characters). -/
def pyIsSpace (c : Char) : Bool :=
  c = ' ' || c = '\t' || c = '\n' || c = '\r' || c = '\x0b' || c = '\x0c'

/-- Worker for `pySplit`: scan the characters, accumulating the current
word in reverse, emitting it at each whitespace run or at the end. -/
def pySplitAux : List Char → List Char → List String
  | [], acc => if acc.isEmpty then [] else [⟨acc.reverse⟩]
  | c :: cs, acc =>
      if pyIsSpace c then
        if acc.isEmpty then pySplitAux cs []
        else ⟨acc.reverse⟩ :: pySplitAux cs []
      else pySplitAux cs (c :: acc)

/-- Python `text.split()`: split on whitespace runs, dropping empty words. -/
def pySplit (s : String) : List String :=
  pySplitAux s.data []

/-- Python `not text.strip()`: the string is empty or all whitespace. -/
def isBlank (s : String) : Bool :=
  s.data.all pyIsSpace

/-- Python `text.lower()` (ASCII case mapping; the scripts involved here
have no case). -/
def pyLower (s : String) : String :=
  ⟨s.data.map Char.toLower⟩

/-- Python `x or y` for an optional string `x`: `y` when `x` is `None` or
empty, else the string in `x`. -/
def pyOrStr (x : Option String) (y : String) : String :=
  match x with
  | none => y
  | some w => if w = "" then y else w

/-- Greedy left-to-right removal of every occurrence of the fasttext
marker `__label__`, as performed by `label.replace("__label__", "")` in
`voice.py:58`. -/
def removeLabelMarker : List Char → List Char
  | '_' :: '_' :: 'l' :: 'a' :: 'b' :: 'e' :: 'l' :: '_' :: '_' :: rest =>
      removeLabelMarker rest
  | c :: cs => c :: removeLabelMarker cs
  | [] => []

/-- `main.py:15` — the regex `[ऀ-ॿ]+` matches somewhere in `text`
iff some character lies in the Devanagari block U+0900–U+097F. -/
def hasDevanagari (text : String) : Bool :=
  text.data.any (fun c => 0x0900 ≤ c.toNat && c.toNat ≤ 0x097F)

/-- `main.py:16` — the regex `[਀-੿]+` matches somewhere in `text`
iff some character lies in the Gurmukhi block U+0A00–U+0A7F. -/
def hasGurmukhi (text : String) : Bool :=
  text.data.any (fun c => 0x0A00 ≤ c.toNat && c.toNat ≤ 0x0A7F)

/-- `main.py:18` — the Hindi word list of `detect_indian_language`. -/
def hindi_words : List String :=
  ["hai", "ho", "ka", "ki", "kya", "tum", "aap",
   "mera", "tera", "nahi", "theek", "acha", "sab"]

/-- `main.py:20` — the Punjabi word list of `detect_indian_language`. -/
def punjabi_words : List String :=
  ["ki", "tusi", "tuhada", "mera", "kirpa", "ho",
   "haan", "nahi", "kidda", "kaim", "kidaan", "kimi"]

/-- `main.py:11` — `detect_indian_language(text)`: Devanagari regex → "hi",
Gurmukhi regex → "pa", then the Punjabi word list before the Hindi word
list over the lowercased whitespace-split words, default "en". -/
def detect_indian_language (text : String) : String :=
  if hasDevanagari text then "hi"
  else if hasGurmukhi text then "pa"
  else if punjabi_words.any (fun w => (pySplit (pyLower text)).contains w) then "pa"
  else if hindi_words.any (fun w => (pySplit (pyLower text)).contains w) then "hi"
  else "en"

/-- `main.py:52` — the destination-language choice inside
`translate_text_smart`: "en" when the detected language is "hi" or "pa",
otherwise "hi". -/
def smart_dest (detected_lang : String) : String :=
  if detected_lang ∈ ["hi", "pa"] then "en" else "hi"

/-- `main.py:47` — `translate_text_smart(text, translator)`: detect the
language, pick the destination, call the external translator (audio
playback is a side effect outside this embedding). Returns the destination
language together with the translator's output. -/
def translate_text_smart (text : String) (translator : String → String → String) :
    String × String :=
  let detected_lang := detect_indian_language text
  let dest_lang := smart_dest detected_lang
  (dest_lang, translator text dest_lang)

/-- `detect_indian_language` only ever returns "hi", "pa" or "en". -/
theorem detect_indian_language_range (text : String) :
    detect_indian_language text = "hi" ∨ detect_indian_language text = "pa" ∨
      detect_indian_language text = "en" := by
  unfold detect_indian_language
  repeat' split
  all_goals simp

/-- C2: a text with no script-range character that contains a word from the
Punjabi list (and also one from the Hindi list) is classified "pa": the
Punjabi list is checked before the Hindi list. -/
theorem punjabi_list_precedence (text : String)
    (hdev : hasDevanagari text = false) (hgur : hasGurmukhi text = false)
    (hpa : ∃ w ∈ punjabi_words, w ∈ pySplit (pyLower text))
    (hhi : ∃ w ∈ hindi_words, w ∈ pySplit (pyLower text)) :
    detect_indian_language text = "pa" := by
  obtain ⟨w, hwl, hwm⟩ := hpa
  have hany : (punjabi_words.any (fun w => (pySplit (pyLower text)).contains w)) = true :=
    List.any_eq_true.mpr ⟨w, hwl, by simpa using hwm⟩
  unfold detect_indian_language
  rw [hdev, hgur, hany]
  simp

/-- C2 witness: "ki tusi theek ho" has no script character, contains the
Punjabi word "tusi" and the Hindi word "theek", and is classified "pa". -/
theorem punjabi_list_precedence_witness :
    detect_indian_language "ki tusi theek ho" = "pa" :=
  punjabi_list_precedence "ki tusi theek ho" (by decide) (by decide)
    ⟨"tusi", by decide, by decide⟩ ⟨"theek", by decide, by decide⟩

/-- C10: `translate_text_smart` selects "en" as destination exactly when
the detected language is "hi" or "pa" (and "hi" otherwise); since the
detector only returns "hi", "pa" or "en", the destination never equals the
detected source language. -/
theorem smart_dest_never_source (text : String) (translator : String → String → String) :
    ((translate_text_smart text translator).1 = "en" ↔
      (detect_indian_language text = "hi" ∨ detect_indian_language text = "pa")) ∧
    (translate_text_smart text translator).1 ≠ detect_indian_language text := by
  rcases detect_indian_language_range text with h | h | h <;>
    simp [translate_text_smart, smart_dest, h]

/-- `voice.py:62` — the hard-coded Devanagari characters of
`detect_language`'s Hindi heuristic (a proper subset of the Devanagari
block: e.g. ऋ and the vowel signs are absent). -/
def hindi_script_chars : String :=
  "अआइईउऊएऐओऔकखगघचछजझञटठडढणतथदधनपफबभमयरलवशषसह"

/-- `voice.py:64` — the hard-coded Gurmukhi characters of
`detect_language`'s Punjabi heuristic (a proper subset of the Gurmukhi
block). -/
def punjabi_script_chars : String :=
  "ਤਸਨਕਪਬਮਲਹਙਜਞਚਛਘਦਧਰਵ"

/-- `voice.py:62` — `any(c in text for c in hindi_script_chars)`. -/
def hasHindiChar (text : String) : Bool :=
  hindi_script_chars.data.any (fun c => text.data.contains c)

/-- `voice.py:64` — `any(c in text for c in punjabi_script_chars)`. -/
def hasPunjabiChar (text : String) : Bool :=
  punjabi_script_chars.data.any (fun c => text.data.contains c)

/-- `voice.py:52` — `detect_language(text, whisper_lang)`. The external
fasttext classifier is the `classifierLabel` oracle: `some label` is the
first predicted label (the code strips the `__label__` marker from it),
`none` models the call raising, which the `except` branch turns into
"en". The whisper hint is combined with Python's `or`. -/
def detect_language (text : String) (classifierLabel : Option String)
    (whisper_lang : Option String) : String :=
  if isBlank text then "en"
  else
    let ft_lang : String :=
      match classifierLabel with
      | some label => ⟨removeLabelMarker label.data⟩
      | none => "en"
    if hasHindiChar text then "hi"
    else if hasPunjabiChar text then "pa"
    else pyOrStr whisper_lang ft_lang

/-- Result of `voice.py`'s `translate_text`: `result = none` means the
external engine raised and the exception propagated out of the function
(there is no try/except in `translate_text`); `engineCalls` counts
invocations of the external engine. -/
structure TranslateOutcome where
  result : Option String
  engineCalls : Nat
deriving DecidableEq

/-- `voice.py:68` — `translate_text(text, src, dest)`: blank text
short-circuits to `""` without touching the engine; otherwise the
tokenizer's source language is clamped to "en" when `src` is unsupported
and the engine is called once. `dest` is accepted but never used by the
code (the loaded model is the fixed mul→en one). The engine oracle takes
the clamped source language and the text; `none` models a raised
exception. -/
def translate_text (text src dest : String)
    (engine : String → String → Option String) : TranslateOutcome :=
  if isBlank text then ⟨some "", 0⟩
  else
    match engine (if src ∈ ["en", "hi", "pa"] then src else "en") text with
    | none => ⟨none, 1⟩
    | some translated => ⟨some translated, 1⟩

/-- `voice.py:80` — `speak_text(text, lang)`: `none` when blank text makes
it return without synthesis, otherwise the text and the clamped language
handed to gTTS (whose errors are caught inside the function, so it always
returns normally). -/
def speak_text (text lang : String) : Option (String × String) :=
  if isBlank text then none
  else some (text, if lang ∈ ["en", "hi", "pa"] then lang else "en")

/-- How one iteration of the `user_stream` loop ends: `silence` is the
`continue` branch, `spoke` a completed cycle, `crashed` an uncaught
exception escaping the loop (terminating the task). -/
inductive IterOutcome where
  | silence
  | spoke (translated : String)
  | crashed
deriving DecidableEq

/-- Observable trace of one `user_stream` iteration. -/
structure IterTrace where
  outcome : IterOutcome
  translateCalls : Nat
  engineCalls : Nat
  synthCalls : Nat
deriving DecidableEq

/-- `voice.py:97` — one iteration of the `user_stream` loop body, given
the recognized `text` of the captured chunk (already stripped by
`transcribe_audio`): empty text hits `continue`; otherwise
`translate_text` runs, an uncaught engine exception crashes the loop, and
on success `speak_text` is awaited. -/
def user_stream_iter (text speak_lang hear_lang : String)
    (engine : String → String → Option String) : IterTrace :=
  if text = "" then ⟨IterOutcome.silence, 0, 0, 0⟩
  else
    let tr := translate_text text speak_lang hear_lang engine
    match tr.result with
    | none => ⟨IterOutcome.crashed, 1, tr.engineCalls, 0⟩
    | some translated =>
        ⟨IterOutcome.spoke translated, 1, tr.engineCalls,
          match speak_text translated hear_lang with
          | none => 0
          | some _ => 1⟩

/-- Every character of the Hindi heuristic list is non-whitespace. -/
theorem hindi_script_chars_not_space :
    ∀ c ∈ hindi_script_chars.data, pyIsSpace c = false := by decide

/-- Every character of the Punjabi heuristic list is non-whitespace. -/
theorem punjabi_script_chars_not_space :
    ∀ c ∈ punjabi_script_chars.data, pyIsSpace c = false := by decide

/-- A text containing a Hindi heuristic character is not blank. -/
theorem hasHindiChar_not_blank (text : String) (h : hasHindiChar text = true) :
    isBlank text = false := by
  obtain ⟨c, hcl, hcm⟩ := List.any_eq_true.mp h
  have hmem : c ∈ text.data := by simpa using hcm
  apply Bool.eq_false_iff.mpr
  intro hall
  have := List.all_eq_true.mp hall c hmem
  rw [hindi_script_chars_not_space c hcl] at this
  exact Bool.false_ne_true this

/-- A text containing a Punjabi heuristic character is not blank. -/
theorem hasPunjabiChar_not_blank (text : String) (h : hasPunjabiChar text = true) :
    isBlank text = false := by
  obtain ⟨c, hcl, hcm⟩ := List.any_eq_true.mp h
  have hmem : c ∈ text.data := by simpa using hcm
  apply Bool.eq_false_iff.mpr
  intro hall
  have := List.all_eq_true.mp hall c hmem
  rw [punjabi_script_chars_not_space c hcl] at this
  exact Bool.false_ne_true this

/-- Helper: a Devanagari-block character makes `detect_indian_language`
return "hi". -/
theorem detect_indian_language_devanagari (text : String)
    (h : hasDevanagari text = true) : detect_indian_language text = "hi" := by
  unfold detect_indian_language
  rw [h]
  simp

/-- Helper: a Gurmukhi-block character, absent Devanagari, makes
`detect_indian_language` return "pa". -/
theorem detect_indian_language_gurmukhi (text : String)
    (h1 : hasDevanagari text = false) (h2 : hasGurmukhi text = true) :
    detect_indian_language text = "pa" := by
  unfold detect_indian_language
  rw [h1, h2]
  simp

/-- Helper: a character of the hard-coded Hindi list makes
`detect_language` return "hi", whatever the classifier and the hint say. -/
theorem detect_language_hindi_char (text : String)
    (classifierLabel whisper_lang : Option String)
    (h : hasHindiChar text = true) :
    detect_language text classifierLabel whisper_lang = "hi" := by
  have hb := hasHindiChar_not_blank text h
  unfold detect_language
  rw [hb, h]
  simp

/-- Helper: a character of the hard-coded Punjabi list, absent Hindi-list
characters, makes `detect_language` return "pa". -/
theorem detect_language_punjabi_char (text : String)
    (classifierLabel whisper_lang : Option String)
    (h1 : hasHindiChar text = false) (h2 : hasPunjabiChar text = true) :
    detect_language text classifierLabel whisper_lang = "pa" := by
  have hb := hasPunjabiChar_not_blank text h2
  unfold detect_language
  rw [hb, h1, h2]
  simp

/-- C1 counterexample: ऋ (U+090B) lies in the Devanagari block, yet
`detect_language` classifies the text "ऋ" as "en" (the classifier's
output), not "hi": its script check is a hard-coded character list that
does not cover the whole block. -/
theorem detect_language_range_char_counterexample :
    hasDevanagari "ऋ" = true ∧
    detect_language "ऋ" (some "__label__en") none = "en" ∧
    detect_language "ऋ" (some "__label__en") none ≠ "hi" := by decide

/-- C1 amended: `detect_indian_language` maps any character of the
Devanagari block to "hi" and (absent Devanagari) any character of the
Gurmukhi block to "pa"; `detect_language` does the same only for its
hard-coded character lists (proper subsets of the blocks), in both cases
regardless of the classifier output and the whisper hint. Neither
function reports a confidence score. -/
theorem script_detection_amended (text : String)
    (classifierLabel whisper_lang : Option String) :
    (hasDevanagari text = true → detect_indian_language text = "hi") ∧
    (hasDevanagari text = false → hasGurmukhi text = true →
      detect_indian_language text = "pa") ∧
    (hasHindiChar text = true →
      detect_language text classifierLabel whisper_lang = "hi") ∧
    (hasHindiChar text = false → hasPunjabiChar text = true →
      detect_language text classifierLabel whisper_lang = "pa") :=
  ⟨detect_indian_language_devanagari text,
   detect_indian_language_gurmukhi text,
   detect_language_hindi_char text classifierLabel whisper_lang,
   detect_language_punjabi_char text classifierLabel whisper_lang⟩

/-- C1 witness: Devanagari "नमस्ते" and Gurmukhi "ਸਤ" texts at concrete
classifier outputs. -/
theorem script_detection_amended_witness :
    detect_indian_language "नमस्ते" = "hi" ∧
    detect_indian_language "ਸਤ ਸ੍ਰੀ ਅਕਾਲ" = "pa" ∧
    detect_language "नमस्ते" (some "__label__en") none = "hi" ∧
    detect_language "ਸਤ" (some "__label__en") none = "pa" :=
  ⟨(script_detection_amended "नमस्ते" (some "__label__en") none).1 (by decide),
   (script_detection_amended "ਸਤ ਸ੍ਰੀ ਅਕਾਲ" (some "__label__en") none).2.1
     (by decide) (by decide),
   (script_detection_amended "नमस्ते" (some "__label__en") none).2.2.1 (by decide),
   (script_detection_amended "ਸਤ" (some "__label__en") none).2.2.2
     (by decide) (by decide)⟩

/-- C9 counterexample: "ऋਕ" contains a Devanagari character (ऋ), yet
`detect_language` returns "pa", because ऋ is missing from the hard-coded
Hindi list while ਕ is on the Punjabi list. -/
theorem devanagari_priority_counterexample :
    hasDevanagari "ऋਕ" = true ∧
    detect_language "ऋਕ" (some "__label__en") none = "pa" ∧
    detect_language "ऋਕ" (some "__label__en") none ≠ "hi" := by decide

/-- C9 amended: on mixed-script text (Gurmukhi characters present),
`detect_indian_language` still returns "hi" whenever any Devanagari-block
character occurs (the Devanagari check runs first), and `detect_language`
still returns "hi" whenever a character of its hard-coded Hindi list
occurs (that check runs before the Punjabi one) — but for
`detect_language` a Devanagari character outside its list does not
trigger the precedence. -/
theorem devanagari_priority_amended (text : String)
    (classifierLabel whisper_lang : Option String)
    (hgur : hasGurmukhi text = true) (hpach : hasPunjabiChar text = true) :
    (hasDevanagari text = true → detect_indian_language text = "hi") ∧
    (hasHindiChar text = true →
      detect_language text classifierLabel whisper_lang = "hi") :=
  ⟨detect_indian_language_devanagari text,
   detect_language_hindi_char text classifierLabel whisper_lang⟩

/-- C9 witness: "नਕ" mixes न (Devanagari, on the Hindi list) with ਕ
(Gurmukhi, on the Punjabi list); both identifiers return "hi". -/
theorem devanagari_priority_amended_witness :
    detect_indian_language "नਕ" = "hi" ∧
    detect_language "नਕ" (some "__label__pa") none = "hi" :=
  ⟨(devanagari_priority_amended "नਕ" (some "__label__pa") none
      (by decide) (by decide)).1 (by decide),
   (devanagari_priority_amended "नਕ" (some "__label__pa") none
      (by decide) (by decide)).2 (by decide)⟩

/-- C6 counterexample: the classifier predicts "fr", outside the
supported set, on script-free text with no hint, and `detect_language`
returns "fr" unchanged instead of falling back to the default. -/
theorem unsupported_code_counterexample :
    detect_language "bonjour" (some "__label__fr") none = "fr" ∧
    ("fr" ∉ (["en", "hi", "pa"] : List String)) := by decide

/-- C6 amended: `detect_language` never checks the classifier's code
against the supported set. On non-blank text with no script-list
character it returns the whisper hint when that is a non-empty string,
else the classifier's code verbatim — unsupported codes included; only a
classifier exception (`none`) falls back to "en". -/
theorem unsupported_code_propagates (text label : String)
    (hb : isBlank text = false) (hh : hasHindiChar text = false)
    (hp : hasPunjabiChar text = false) :
    (∀ w : String, w ≠ "" →
      detect_language text (some label) (some w) = w) ∧
    detect_language text (some label) none = ⟨removeLabelMarker label.data⟩ ∧
    detect_language text none none = "en" := by
  unfold detect_language
  rw [hb, hh, hp]
  refine ⟨fun w hw => ?_, ?_, ?_⟩
  · simp [pyOrStr, hw]
  · simp [pyOrStr]
  · simp [pyOrStr]

/-- C6 witness: classifier code "fr" propagates on "bonjour hello"; a
classifier exception yields "en"; a hint "de" overrides the classifier. -/
theorem unsupported_code_propagates_witness :
    detect_language "bonjour hello" (some "__label__fr") (some "de") = "de" ∧
    detect_language "bonjour hello" (some "__label__fr") none = "fr" ∧
    detect_language "bonjour hello" none none = "en" := by
  have h := unsupported_code_propagates "bonjour hello" "__label__fr"
    (by decide) (by decide) (by decide)
  exact ⟨h.1 "de" (by decide), h.2.1.trans (by decide), h.2.2⟩

/-- C4 counterexample: with an engine that raises, `translate_text`
propagates the exception (no result) instead of returning the original
text "hello", and the `user_stream` iteration crashes instead of
continuing. -/
theorem translate_crash_counterexample :
    (translate_text "hello" "en" "pa" (fun _ _ => none)).result = none ∧
    (translate_text "hello" "en" "pa" (fun _ _ => none)).result ≠ some "hello" ∧
    (user_stream_iter "hello" "en" "pa" (fun _ _ => none)).outcome
      = IterOutcome.crashed := by decide

/-- C4 amended: `translate_text` has no exception handler: when the
engine raises on a non-blank text, the exception propagates out of
`translate_text` (no value is returned, in particular not the original
text) and out of the `user_stream` loop body, terminating the directional
loop instead of reaching the next capture iteration. -/
theorem translate_crash_propagates (text src dest : String)
    (engine : String → String → Option String)
    (hb : isBlank text = false)
    (he : engine (if src ∈ ["en", "hi", "pa"] then src else "en") text = none) :
    (translate_text text src dest engine).result = none ∧
    (user_stream_iter text src dest engine).outcome = IterOutcome.crashed := by
  have hne : text ≠ "" := by
    intro hempty
    rw [hempty] at hb
    exact absurd hb (by decide)
  have h1 : (translate_text text src dest engine).result = none := by
    unfold translate_text
    rw [hb, he]
    simp
  refine ⟨h1, ?_⟩
  unfold user_stream_iter
  rw [if_neg hne]
  simp [h1]

/-- C4 witness: a crashing engine on "hi there". -/
theorem translate_crash_propagates_witness :
    (translate_text "hi there" "en" "hi" (fun _ _ => none)).result = none ∧
    (user_stream_iter "hi there" "en" "hi" (fun _ _ => none)).outcome
      = IterOutcome.crashed :=
  translate_crash_propagates "hi there" "en" "hi" (fun _ _ => none)
    (by decide) rfl

/-- C8: an iteration whose recognized text is empty takes the `continue`
branch: no call to `translate_text`, no engine call, no synthesis, and
the outcome is the silence verdict (loop proceeds, no exception). -/
theorem silent_iteration_no_calls (speak_lang hear_lang : String)
    (engine : String → String → Option String) :
    (user_stream_iter "" speak_lang hear_lang engine).outcome
      = IterOutcome.silence ∧
    (user_stream_iter "" speak_lang hear_lang engine).translateCalls = 0 ∧
    (user_stream_iter "" speak_lang hear_lang engine).engineCalls = 0 ∧
    (user_stream_iter "" speak_lang hear_lang engine).synthCalls = 0 := by
  simp [user_stream_iter]

/-- State of the shared translation-model cache of `app.py`.
Modelled from the spec: the memoization performed by Streamlit's
`st.cache_resource` decorator (library code, not in the repository)
is a read-through, never-evicted table keyed by the function's
arguments — here the ordered pair (src, dest). `entries` maps a pair to
the identifier of the capability instance built for it, `nextId` is the
next fresh instance identifier, and `loads` logs every actual execution
of the decorated function body (one entry per real model load). -/
structure CacheState where
  entries : List ((String × String) × Nat)
  nextId : Nat
  loads : List (String × String)
deriving DecidableEq

/-- The empty cache at process start. -/
def CacheState.init : CacheState :=
  ⟨[], 0, []⟩

/-- First-match lookup in the cache table. -/
def cacheLookup (k : String × String) :
    List ((String × String) × Nat) → Option Nat
  | [] => none
  | (k', v) :: rest => if k = k' then some v else cacheLookup k rest

/-- `app.py:25` — `load_translation_model(src, dest)` under
`st.cache_resource`: on a hit the cached capability is returned and the
state is untouched; on a miss the decorated body runs (logged in
`loads`), a fresh capability instance is created, inserted, and
returned. -/
def load_translation_model (src dest : String) (s : CacheState) :
    Nat × CacheState :=
  match cacheLookup (src, dest) s.entries with
  | some cap => (cap, s)
  | none =>
      (s.nextId,
       ⟨((src, dest), s.nextId) :: s.entries, s.nextId + 1,
        (src, dest) :: s.loads⟩)

/-- `app.py:65` — `translate_text(text, src, dest)` of the router:
resolve the capability through the cache, then run the external engine
on that capability. Returns the translated text, the capability instance
used, and the new cache state. -/
def app_translate_text (text src dest : String)
    (engine : Nat → String → String) (s : CacheState) :
    (String × Nat) × CacheState :=
  let (cap, s') := load_translation_model src dest s
  ((engine cap text, cap), s')

/-- N successive calls of the router `translate_text` with a fixed
(src, dest) pair, starting from cache state `s`; returns the capability
instance used by each call and the final state. -/
def run_translations (texts : List String) (src dest : String)
    (engine : Nat → String → String) (s : CacheState) :
    List Nat × CacheState :=
  match texts with
  | [] => ([], s)
  | t :: ts =>
      let (r, s') := app_translate_text t src dest engine s
      let (caps, s'') := run_translations ts src dest engine s'
      (r.2 :: caps, s'')

/-- Helper: once the pair is cached with capability `cap`, every further
router call reuses `cap` and leaves the cache state untouched. -/
theorem run_translations_cached (texts : List String) (src dest : String)
    (engine : Nat → String → String) (s : CacheState) (cap : Nat)
    (h : cacheLookup (src, dest) s.entries = some cap) :
    run_translations texts src dest engine s
      = (List.replicate texts.length cap, s) := by
  induction texts with
  | nil => simp [run_translations]
  | cons t ts ih =>
      simp [run_translations, app_translate_text, load_translation_model, h,
        ih, List.replicate]

/-- C3: starting from the empty cache, any non-empty sequence of router
calls with a fixed (src, dest) pair executes the model load exactly once
(the `loads` log holds the single pair) and every call uses the same
cached capability instance. -/
theorem translation_cache_single_load (texts : List String) (src dest : String)
    (engine : Nat → String → String) (h : texts ≠ []) :
    (run_translations texts src dest engine CacheState.init).2.loads
      = [(src, dest)] ∧
    (run_translations texts src dest engine CacheState.init).1
      = List.replicate texts.length 0 := by
  match texts with
  | [] => exact absurd rfl h
  | t :: ts =>
      have hfirst : load_translation_model src dest CacheState.init
          = (0, CacheState.mk [((src, dest), 0)] 1 [(src, dest)]) := rfl
      rw [run_translations]
      simp only [app_translate_text, hfirst]
      rw [run_translations_cached ts src dest engine
        (CacheState.mk [((src, dest), 0)] 1 [(src, dest)]) 0 (by simp [cacheLookup])]
      simp [List.replicate_succ]

/-- C3 witness: three calls for the pair (en, hi) from the empty cache:
one load, all three calls on capability 0. -/
theorem translation_cache_single_load_witness :
    (run_translations ["good", "morning", "friend"] "en" "hi"
        (fun _ t => t) CacheState.init).2.loads = [("en", "hi")] ∧
    (run_translations ["good", "morning", "friend"] "en" "hi"
        (fun _ t => t) CacheState.init).1 = List.replicate 3 0 :=
  translation_cache_single_load ["good", "morning", "friend"] "en" "hi"
    (fun _ t => t) (by decide)

/-- C5 counterexample: `app.py`'s router `translate_text` — the only
translate with a cache — has no empty-text short-circuit: on the empty
string it still resolves the pair through the cache (from the empty
cache, a model load is even logged) and invokes the engine, whose output
(not "") is returned. -/
theorem blank_router_counterexample :
    (app_translate_text "" "en" "hi" (fun _ _ => "X") CacheState.init).2.loads
      = [("en", "hi")] ∧
    (app_translate_text "" "en" "hi" (fun _ _ => "X") CacheState.init).1.1 = "X" ∧
    (app_translate_text "" "en" "hi" (fun _ _ => "X") CacheState.init).1.1 ≠ "" := by
  decide

/-- C5 amended: on blank (empty or whitespace-only) text,
`voice.py`'s `detect_language` returns the fallback "en" whatever the
classifier and hint would say (the code returns a bare language code and
reports no confidence score), and `voice.py`'s `translate_text` returns
the empty string with zero engine invocations; `app.py`'s cached router
`translate_text`, by contrast, does not short-circuit: it resolves the
pair through the cache and hands even blank text to the engine, returning
the engine's output. -/
theorem blank_text_shortcircuit (text src dest : String)
    (classifierLabel whisper_lang : Option String)
    (engine : String → String → Option String)
    (routerEngine : Nat → String → String) (s : CacheState)
    (h : isBlank text = true) :
    detect_language text classifierLabel whisper_lang = "en" ∧
    (translate_text text src dest engine).result = some "" ∧
    (translate_text text src dest engine).engineCalls = 0 ∧
    (app_translate_text text src dest routerEngine s).1.1
      = routerEngine (load_translation_model src dest s).1 text := by
  refine ⟨?_, ?_, ?_, ?_⟩
  · unfold detect_language
    rw [h]
    simp
  · unfold translate_text
    rw [h]
    simp
  · unfold translate_text
    rw [h]
    simp
  · unfold app_translate_text
    rcases hL : load_translation_model src dest s with ⟨cap, s'⟩
    simp [hL]

/-- C5 witness: two spaces, with a classifier that would say "hi", a hint
"hi", an engine that would echo the text, and a router engine returning
"X" on a fresh cache. -/
theorem blank_text_shortcircuit_witness :
    detect_language "  " (some "__label__hi") (some "hi") = "en" ∧
    (translate_text "  " "en" "pa" (fun _ t => some t)).result = some "" ∧
    (translate_text "  " "en" "pa" (fun _ t => some t)).engineCalls = 0 ∧
    (app_translate_text "  " "en" "pa" (fun _ _ => "X") CacheState.init).1.1
      = "X" := by
  have h := blank_text_shortcircuit "  " "en" "pa" (some "__label__hi")
    (some "hi") (fun _ t => some t) (fun _ _ => "X") CacheState.init (by decide)
  exact ⟨h.1, h.2.1, h.2.2.1, h.2.2.2.trans rfl⟩

/-- Concatenation of the speech regions selected by the VAD.
Modelled from the spec: `silero_vad.collect_chunks(timestamps, wav)`
(library code, not in the repository) concatenates the slices
`wav[start:end]` of the speech regions, in order. -/
def collect_chunks {α : Type} (timestamps : List (Nat × Nat)) (wav : List α) :
    List α :=
  (timestamps.map (fun r => (wav.drop r.1).take (r.2 - r.1))).flatten

/-- `voice.py:32` and `app.py:46` — `remove_silence(audio)`: the buffer
round-trips unchanged through a scoped temporary wav file, the external
VAD (the `vad` oracle) lists the speech regions, an empty list passes
the original buffer through unchanged, otherwise only the speech regions
are concatenated. -/
def remove_silence {α : Type} (audio : List α)
    (vad : List α → List (Nat × Nat)) : List α :=
  if vad audio = [] then audio
  else collect_chunks (vad audio) audio

/-- C7: with no detected speech regions the segmenter returns the buffer
unchanged; with regions it returns exactly the concatenation of the
region slices. -/
theorem remove_silence_spec_thm {α : Type} (audio : List α)
    (vad : List α → List (Nat × Nat)) :
    (vad audio = [] → remove_silence audio vad = audio) ∧
    (vad audio ≠ [] →
      remove_silence audio vad
        = ((vad audio).map (fun r => (audio.drop r.1).take (r.2 - r.1))).flatten) := by
  constructor
  · intro h
    simp [remove_silence, h]
  · intro h
    simp [remove_silence, h, collect_chunks]

/-- C7 witness: a silent buffer passes through; regions (0,2) and (3,4)
of [1,2,3,4] concatenate to [1,2,4]. -/
theorem remove_silence_spec_witness :
    remove_silence [1, 2, 3, 4] (fun _ => ([] : List (Nat × Nat))) = [1, 2, 3, 4] ∧
    remove_silence [1, 2, 3, 4] (fun _ => [(0, 2), (3, 4)]) = [1, 2, 4] := by
  constructor
  · exact (remove_silence_spec_thm [1, 2, 3, 4] (fun _ => [])).1 rfl
  · exact Eq.trans
      ((remove_silence_spec_thm ([1, 2, 3, 4] : List Nat)
        (fun _ => [(0, 2), (3, 4)])).2 (by decide)) (by decide)
